import Mathlib

/-!
# mhilton/ca: PEM codec, key codec and certificate defaulting

A shallow embedding of `pem.go`, `key.go` and `cert.go`.

The repository is glue around Go's `crypto/x509`, `encoding/pem`,
`crypto/rand` and `crypto/sha1`.  Those libraries are not part of the
repository, so every one of their entry points that the code calls is a
field of a record of primitives (`PEMCodec`, `PEMCrypto`, `X509`, `Rand`)
and the theorems quantify over all such records.  Two library functions
that are plain data inspection (`x509.IsEncryptedPEMBlock`,
`pkix.Name.ToRDNSequence`) are written out.

Go values that may be `nil` are `Option`s, byte slices are `List Nat`,
`*big.Int` is `Option Int`.  A Go function that can `panic` returns an
`Outcome`, one that cannot returns an `Except`.
-/

namespace CA

/-! ## Errors and results -/

/-- Go byte slices. -/
abbrev Bytes := List Nat

/-- Errors, following the `errgo` constructors used by the package. -/
inductive Error where
  /-- Produced by `errgo.New(msg)`. -/
  | new (msg : String)
  /-- Produced by `errgo.Newf(format, arg)` with one `%q` or `%T` argument. -/
  | newf (format : String) (arg : String)
  /-- Produced by `errgo.Notef(underlying, msg)`. -/
  | notef (underlying : Error) (msg : String)
  /-- Produced by `errgo.Mask(underlying)`, also with `errgo.Any`. -/
  | mask (underlying : Error)
  /-- An error value returned by a library primitive or by a caller-supplied object. -/
  | external (msg : String)
  deriving DecidableEq, Repr

/-- Result of a Go function that returns `(value, error)` and may also panic. -/
inductive Outcome (α : Type) where
  | ok (value : α)
  | error (err : Error)
  | panic (reason : String)
  deriving DecidableEq, Repr

/-! ## PEM blocks and the passphrase source (`pem.go`) -/

/-- Go `pem.Block`: a type tag, headers (a string map) and the payload. -/
structure Block where
  Type_ : String
  Headers : List (String × String)
  Bytes : Bytes
  deriving DecidableEq, Repr

/-- Go `encoding/pem`, as used through an `io.Reader` / `io.Writer` whose contents
have type `W`.  `Encode` is `pem.Encode(w, b)`: the text written, or the error of
the encoder or of the writer.  `Decode` is the first result of `pem.Decode(buf)`,
`none` for a `nil` block. -/
structure PEMCodec (W : Type) where
  Encode : Block → Except Error W
  Decode : W → Option Block

/-- Go `x509.EncryptPEMBlock(rand.Reader, blockType, data, password, alg)` and
`x509.DecryptPEMBlock(b, password)`. -/
structure PEMCrypto where
  EncryptPEMBlock : String → Bytes → Bytes → Nat → Except Error Block
  DecryptPEMBlock : Block → Bytes → Except Error Bytes

/-- Go `x509.IsEncryptedPEMBlock`: `_, ok := b.Headers["DEK-Info"]; return ok`. -/
def IsEncryptedPEMBlock (b : Block) : Bool :=
  b.Headers.any (fun h => h.1 == "DEK-Info")

/-- The interface `PassphraseGetter`: one method, which may have effects on a
state of type `σ` (a terminal, a counter, ...). -/
structure PassphraseGetter (σ : Type) where
  GetPassphrase : σ → Except Error Bytes × σ

/-- The state a call runs in: the passphrase source's own state and the number
of times `GetPassphrase` has been invoked so far. -/
structure World (σ : Type) where
  state : σ
  calls : Nat
  deriving DecidableEq, Repr

/-- One invocation `pg.GetPassphrase(ctx)`. -/
def PassphraseGetter.invoke {σ : Type} (pg : PassphraseGetter σ) (w : World σ) :
    Except Error Bytes × World σ :=
  let r := pg.GetPassphrase w.state
  (r.1, { state := r.2, calls := w.calls + 1 })

/-- The function `ReadPEM`; `r` is the outcome of `ioutil.ReadAll(r)`. -/
def ReadPEM {W : Type} (codec : PEMCodec W) (r : Except Error W) : Except Error Block :=
  match r with
  | .error err => .error (.mask err)
  | .ok buf =>
    match codec.Decode buf with
    | none => .error (.new "invalid PEM data")
    | some block => .ok block

/-- The function `ReadEncryptedPEM`.  A `nil` passphrase source is `none`; calling
its method is a nil dereference. -/
def ReadEncryptedPEM {W σ : Type} (codec : PEMCodec W) (crypto : PEMCrypto)
    (r : Except Error W) (pg : Option (PassphraseGetter σ)) (w : World σ) :
    Outcome Block × World σ :=
  match ReadPEM codec r with
  | .error err => (.error (.mask err), w)
  | .ok b =>
    if !IsEncryptedPEMBlock b then (.ok b, w)
    else
      match pg with
      | none => (.panic "invalid memory address or nil pointer dereference", w)
      | some g =>
        match g.invoke w with
        | (.error err, w1) => (.error (.mask err), w1)
        | (.ok passphrase, w1) =>
          match crypto.DecryptPEMBlock b passphrase with
          | .error err => (.error (.notef err "cannot decode block"), w1)
          | .ok bytes => (.ok { b with Bytes := bytes }, w1)

/-- Go `errgo.Mask` applied to a result that may be `nil`. -/
def maskResult {α : Type} (r : Except Error α) : Except Error α :=
  match r with
  | .error err => .error (.mask err)
  | .ok a => .ok a

/-- The function `WritePEM`: the text written to the writer, or the error. -/
def WritePEM {W : Type} (codec : PEMCodec W) (b : Block) : Except Error W :=
  maskResult (codec.Encode b)

/-- In `WriteEncryptedPEM`: the value of the variable `b` when the final
`WritePEM(w, b)` is reached, or the error returned before that; `alg` is the
`x509.PEMCipher`, an integer. -/
def WriteEncryptedPEM.block {σ : Type} (crypto : PEMCrypto)
    (b : Block) (pg : Option (PassphraseGetter σ)) (alg : Nat) (w : World σ) :
    Except Error Block × World σ :=
  let fetched : Except Error Bytes × World σ :=
    if alg != 0 then
      match pg with
      | some g => g.invoke w
      | none => (.ok [], w)
    else (.ok [], w)
  match fetched with
  | (.error err, w1) => (.error (.mask err), w1)
  | (.ok passphrase, w1) =>
    if passphrase.length > 0 then
      match crypto.EncryptPEMBlock b.Type_ b.Bytes passphrase alg with
      | .error err => (.error (.notef err "cannot encrypt block"), w1)
      | .ok b1 => (.ok b1, w1)
    else (.ok b, w1)

/-- The function `WriteEncryptedPEM`. -/
def WriteEncryptedPEM {W σ : Type} (codec : PEMCodec W) (crypto : PEMCrypto)
    (b : Block) (pg : Option (PassphraseGetter σ)) (alg : Nat) (w : World σ) :
    Except Error W × World σ :=
  match WriteEncryptedPEM.block crypto b pg alg w with
  | (.error err, w1) => (.error err, w1)
  | (.ok b1, w1) => (maskResult (WritePEM codec b1), w1)

/-! ## Keys (`key.go`) -/

/-- Go `rsa.PrivateKey`. -/
structure RSAPrivateKey where
  N : Nat
  E : Nat
  D : Nat
  Primes : List Nat
  deriving DecidableEq, Repr

/-- Go `ecdsa.PrivateKey`; the curve is kept by name. -/
structure ECDSAPrivateKey where
  Curve : String
  X : Nat
  Y : Nat
  D : Nat
  deriving DecidableEq, Repr

/-- A public key, an `interface{}` in Go: RSA, ECDSA, or anything else. -/
inductive PublicKey where
  | rsa (N E : Nat)
  | ecdsa (Curve : String) (X Y : Nat)
  | other (desc : String)
  deriving DecidableEq, Repr

/-- Go `crypto.Signer`: the two concrete kinds the package knows, and any other
implementation of the interface. -/
inductive Signer where
  | rsa (key : RSAPrivateKey)
  | ecdsa (key : ECDSAPrivateKey)
  | other (typeName : String) (pub : PublicKey)
  deriving DecidableEq, Repr

/-- The method `Public()` of `crypto.Signer`. -/
def Signer.Public : Signer → PublicKey
  | .rsa key => .rsa key.N key.E
  | .ecdsa key => .ecdsa key.Curve key.X key.Y
  | .other _ pub => pub

/-- A Go `interface{}` holding a parsed private key: either a value whose type
implements `crypto.Signer`, or a value of a type that does not. -/
inductive AnyKey where
  | signer (s : Signer)
  | nonSigner (typeName : String)
  deriving DecidableEq, Repr

/-! ## Certificates (`cert.go`) -/

/-- Go `pkix.AttributeTypeAndValue`; the type is an object identifier. -/
structure AttributeTypeAndValue where
  Type_ : List Nat
  Value : String
  deriving DecidableEq, Repr

/-- Go `pkix.Name`. -/
structure Name where
  Country : List String
  Organization : List String
  OrganizationalUnit : List String
  Locality : List String
  Province : List String
  StreetAddress : List String
  PostalCode : List String
  SerialNumber : String
  CommonName : String
  Names : List AttributeTypeAndValue
  ExtraNames : List AttributeTypeAndValue
  deriving DecidableEq, Repr

/-- Go `pkix.oidInAttributeTypeAndValue`. -/
def oidInAttributeTypeAndValue (oid : List Nat) (atv : List AttributeTypeAndValue) : Bool :=
  atv.any (fun a => a.Type_ == oid)

/-- Go `pkix.Name.appendRDNs`. -/
def Name.appendRDNs (n : Name) (acc : List (List AttributeTypeAndValue))
    (values : List String) (oid : List Nat) : List (List AttributeTypeAndValue) :=
  if values.length == 0 || oidInAttributeTypeAndValue oid n.ExtraNames then acc
  else acc ++ [values.map (fun value => { Type_ := oid, Value := value })]

/-- Go `pkix.Name.ToRDNSequence`. -/
def Name.ToRDNSequence (n : Name) : List (List AttributeTypeAndValue) :=
  let ret := n.appendRDNs [] n.Country [2, 5, 4, 6]
  let ret := n.appendRDNs ret n.Province [2, 5, 4, 8]
  let ret := n.appendRDNs ret n.Locality [2, 5, 4, 7]
  let ret := n.appendRDNs ret n.StreetAddress [2, 5, 4, 9]
  let ret := n.appendRDNs ret n.PostalCode [2, 5, 4, 17]
  let ret := n.appendRDNs ret n.Organization [2, 5, 4, 10]
  let ret := n.appendRDNs ret n.OrganizationalUnit [2, 5, 4, 11]
  let ret := if n.CommonName.length > 0 then n.appendRDNs ret [n.CommonName] [2, 5, 4, 3] else ret
  let ret := if n.SerialNumber.length > 0 then n.appendRDNs ret [n.SerialNumber] [2, 5, 4, 5] else ret
  ret ++ n.ExtraNames.map (fun atv => [atv])

/-- Go `x509.Certificate`, used both as template and as parsed certificate. -/
structure Certificate where
  Raw : Option Bytes
  Subject : Name
  DNSNames : List String
  EmailAddresses : List String
  IPAddresses : List Bytes
  SerialNumber : Option Int
  SubjectKeyId : Option Bytes
  NotBefore : Int
  NotAfter : Int
  BasicConstraintsValid : Bool
  IsCA : Bool
  MaxPathLen : Int
  MaxPathLenZero : Bool
  deriving DecidableEq, Repr

/-- Go `x509.CertificateRequest`. -/
structure CertificateRequest where
  Raw : Option Bytes
  Subject : Name
  DNSNames : List String
  EmailAddresses : List String
  IPAddresses : List Bytes
  PublicKey : PublicKey
  deriving DecidableEq, Repr

/-- The entry points of Go `crypto/x509` and `crypto/sha1` that the package calls.
`CreateCertificate` takes (template, parent, public key, signer) and
`CreateCertificateRequest` takes (template, signer); both read `rand.Reader`. -/
structure X509 where
  ParseECPrivateKey : Bytes → Except Error ECDSAPrivateKey
  ParsePKCS1PrivateKey : Bytes → Except Error RSAPrivateKey
  ParsePKCS8PrivateKey : Bytes → Except Error AnyKey
  MarshalPKCS1PrivateKey : RSAPrivateKey → Bytes
  MarshalECPrivateKey : ECDSAPrivateKey → Except Error Bytes
  MarshalPKIXPublicKey : PublicKey → Except Error Bytes
  ParseCertificate : Bytes → Except Error Certificate
  ParseCertificateRequest : Bytes → Except Error CertificateRequest
  CreateCertificate : Certificate → Certificate → PublicKey → Signer → Except Error Bytes
  CreateCertificateRequest : CertificateRequest → Signer → Except Error Bytes
  Sum : Bytes → Bytes

/-- Go `rand.Int(rand.Reader, max)`: the value drawn, or the reader's error. -/
structure Rand where
  Int : Nat → Except Error Nat

/-- The function `UnmarshalKey`.  The last line is the unchecked type assertion
`key.(crypto.Signer)`. -/
def UnmarshalKey (x : X509) (b : Block) : Outcome Signer :=
  let parsed : Except Error (Except Error AnyKey) :=
    if b.Type_ == "EC PRIVATE KEY" then
      .ok ((x.ParseECPrivateKey b.Bytes).map (fun k => AnyKey.signer (.ecdsa k)))
    else if b.Type_ == "RSA PRIVATE KEY" then
      .ok ((x.ParsePKCS1PrivateKey b.Bytes).map (fun k => AnyKey.signer (.rsa k)))
    else if b.Type_ == "PRIVATE KEY" then
      .ok (x.ParsePKCS8PrivateKey b.Bytes)
    else .error (.newf "unsupported key type %q" b.Type_)
  match parsed with
  | .error err => .error err
  | .ok (.error err) => .error (.notef err "invalid key")
  | .ok (.ok (.signer s)) => .ok s
  | .ok (.ok (.nonSigner typeName)) =>
    .panic ("interface conversion: " ++ typeName ++ " is not crypto.Signer: missing method Sign")

/-- The function `MarshalKey`. -/
def MarshalKey (x : X509) (key : Signer) : Except Error Block :=
  match key with
  | .rsa v =>
    .ok { Type_ := "RSA PRIVATE KEY", Headers := [], Bytes := x.MarshalPKCS1PrivateKey v }
  | .ecdsa v =>
    match x.MarshalECPrivateKey v with
    | .error err => .error (.notef err "cannot marshal key")
    | .ok bytes => .ok { Type_ := "EC PRIVATE KEY", Headers := [], Bytes := bytes }
  | .other typeName _ => .error (.newf "unsupported key type %T" typeName)

/-- The function `ReadKey`. -/
def ReadKey {W σ : Type} (codec : PEMCodec W) (crypto : PEMCrypto) (x : X509)
    (r : Except Error W) (pg : Option (PassphraseGetter σ)) (w : World σ) :
    Outcome Signer × World σ :=
  match ReadEncryptedPEM codec crypto r pg w with
  | (.error err, w1) => (.error (.mask err), w1)
  | (.panic reason, w1) => (.panic reason, w1)
  | (.ok b, w1) => (UnmarshalKey x b, w1)

/-- The function `WriteKey`. -/
def WriteKey {W σ : Type} (codec : PEMCodec W) (crypto : PEMCrypto) (x : X509)
    (key : Signer) (pg : Option (PassphraseGetter σ)) (alg : Nat) (w : World σ) :
    Except Error W × World σ :=
  match MarshalKey x key with
  | .error err => (.error (.mask err), w)
  | .ok b => WriteEncryptedPEM codec crypto b pg alg w

/-- The function `UnmarshalCertificateRequest`. -/
def UnmarshalCertificateRequest (x : X509) (b : Block) : Except Error CertificateRequest :=
  if b.Type_ != "CERTIFICATE REQUEST" then
    .error (.newf "unsupported certificate request type %q" b.Type_)
  else
    match x.ParseCertificateRequest b.Bytes with
    | .error err => .error (.notef err "invalid certificate request")
    | .ok csr => .ok csr

/-- The function `MarshalCertificateRequest`. -/
def MarshalCertificateRequest (csr : CertificateRequest) : Except Error Block :=
  match csr.Raw with
  | none => .error (.new "invalid certificate signing request")
  | some raw => .ok { Type_ := "CERTIFICATE REQUEST", Headers := [], Bytes := raw }

/-- The function `UnmarshalCertificate`. -/
def UnmarshalCertificate (x : X509) (b : Block) : Except Error Certificate :=
  if b.Type_ != "CERTIFICATE" then
    .error (.newf "unsupported certificate type %q" b.Type_)
  else
    match x.ParseCertificate b.Bytes with
    | .error err => .error (.notef err "invalid certificate")
    | .ok crt => .ok crt

/-- The function `MarshalCertificate`. -/
def MarshalCertificate (crt : Certificate) : Except Error Block :=
  match crt.Raw with
  | none => .error (.new "invalid certificate")
  | some raw => .ok { Type_ := "CERTIFICATE", Headers := [], Bytes := raw }

/-- The function `generateCertificateValues`.  Go mutates `*template` and returns
an error; here the mutated template is returned next to the error (`none` for
`nil`). -/
def generateCertificateValues (x : X509) (rnd : Rand) (template : Certificate)
    (publicKey : PublicKey) : Certificate × Option Error :=
  let serial : Certificate × Option Error :=
    match template.SerialNumber with
    | some _ => (template, none)
    | none =>
      let max : Nat := 1 <<< (20 * 8)
      match rnd.Int max with
      | .error err =>
        ({ template with SerialNumber := none },
          some (.notef err "cannot generate serial number"))
      | .ok n => ({ template with SerialNumber := some (n : Int) }, none)
  match serial with
  | (template1, some err) => (template1, some err)
  | (template1, none) =>
    match template1.SubjectKeyId with
    | some _ => (template1, none)
    | none =>
      match x.MarshalPKIXPublicKey publicKey with
      | .ok data => ({ template1 with SubjectKeyId := some (x.Sum data) }, none)
      | .error _ => (template1, none)

/-- Tail shared by `SelfSignCertificate` and `SignCertificate`: the result of
`x509.CreateCertificate` is parsed back, and a parse failure panics. -/
def parseCreated (x : X509) (created : Except Error Bytes) : Outcome Certificate :=
  match created with
  | .error err => .error (.mask err)
  | .ok data =>
    match x.ParseCertificate data with
    | .error _ => .panic "cannot parse created certificate"
    | .ok crt => .ok crt

/-- In `SelfSignCertificate`: the local `template` and the error after the call
of `generateCertificateValues`. -/
def SelfSignCertificate.prepared (x : X509) (rnd : Rand) (params : Certificate)
    (key : Signer) : Certificate × Option Error :=
  generateCertificateValues x rnd params key.Public

/-- The function `SelfSignCertificate`. -/
def SelfSignCertificate (x : X509) (rnd : Rand) (params : Certificate) (key : Signer) :
    Outcome Certificate :=
  match SelfSignCertificate.prepared x rnd params key with
  | (_, some err) => .error (.mask err)
  | (template, none) =>
    parseCreated x (x.CreateCertificate template template key.Public key)

/-- In `SignCertificate`: the local `template` after the four identity
assignments, before `generateCertificateValues`. -/
def SignCertificate.merged (csr : CertificateRequest) (params : Certificate) : Certificate :=
  let template := params
  let template :=
    if template.Subject.ToRDNSequence.length == 0 then { template with Subject := csr.Subject }
    else template
  let template :=
    if template.DNSNames.length == 0 then { template with DNSNames := csr.DNSNames }
    else template
  let template :=
    if template.EmailAddresses.length == 0 then
      { template with EmailAddresses := csr.EmailAddresses }
    else template
  let template :=
    if template.IPAddresses.length == 0 then { template with IPAddresses := csr.IPAddresses }
    else template
  template

/-- In `SignCertificate`: the local `template` and the error after the call of
`generateCertificateValues`. -/
def SignCertificate.prepared (x : X509) (rnd : Rand) (csr : CertificateRequest)
    (params : Certificate) : Certificate × Option Error :=
  generateCertificateValues x rnd (SignCertificate.merged csr params) csr.PublicKey

/-- The function `SignCertificate`. -/
def SignCertificate (x : X509) (rnd : Rand) (csr : CertificateRequest)
    (params parent : Certificate) (key : Signer) : Outcome Certificate :=
  match SignCertificate.prepared x rnd csr params with
  | (_, some err) => .error (.mask err)
  | (template, none) =>
    parseCreated x (x.CreateCertificate template parent csr.PublicKey key)

/-- The function `SignCertificateRequest`. -/
def SignCertificateRequest (x : X509) (template : CertificateRequest) (key : Signer) :
    Outcome CertificateRequest :=
  match x.CreateCertificateRequest template key with
  | .error err => .error (.mask err)
  | .ok data =>
    match x.ParseCertificateRequest data with
    | .error _ => .panic "cannot parse created certificate request"
    | .ok csr => .ok csr

/-! ## Cipher selection (`cmd/ca-keygen/main.go`) -/

/-- Go `x509.PEMCipherDES`; the `x509.PEMCipher` constants count from 1. -/
def PEMCipherDES : Nat := 1

/-- Go `x509.PEMCipher3DES`. -/
def PEMCipher3DES : Nat := 2

/-- Go `x509.PEMCipherAES128`. -/
def PEMCipherAES128 : Nat := 3

/-- Go `x509.PEMCipherAES192`. -/
def PEMCipherAES192 : Nat := 4

/-- Go `x509.PEMCipherAES256`. -/
def PEMCipherAES256 : Nat := 5

/-- The map `ciphers`, entry by entry as in the source. -/
def ciphers : List (String × Nat) :=
  [("", 0),
   ("des", PEMCipherDES),
   ("3des", PEMCipher3DES),
   ("aes128", PEMCipherAES128),
   ("aes192", PEMCipherAES192),
   ("aes256", PEMCipherAES192)]

/-- The type `cipherVar`, a named string type. -/
structure cipherVar where
  value : String
  deriving DecidableEq, Repr

/-- The method `Set` of `*cipherVar`: the value of `*v` afterwards and the error
returned (`none` for `nil`). -/
def cipherVar.Set (v : cipherVar) (s : String) : cipherVar × Option Error :=
  match ciphers.lookup s with
  | some _ => ({ value := s }, none)
  | none => (v, some (.newf "unsupported cipher %q" s))

/-- The method `String` of `cipherVar`. -/
def cipherVar.String (v : cipherVar) : String := v.value

/-- The method `cipher` of `cipherVar`: a map index, the zero value for a missing key. -/
def cipherVar.cipher (v : cipherVar) : Nat :=
  match ciphers.lookup v.value with
  | some alg => alg
  | none => 0

/-- The variable `cipher`, the flag's default. -/
def cipher : cipherVar := { value := "aes128" }

/-! ## Test doubles

Concrete stand-ins for the library primitives and for the passphrase source,
used to evaluate the functions above on concrete inputs. -/

/-- A passphrase source that returns a fixed passphrase, as
`constPassphraseGetter` in `cmd/internal/passphrase`. -/
def constPassphraseGetter (passphrase : Bytes) : PassphraseGetter Unit :=
  { GetPassphrase := fun s => (.ok passphrase, s) }

/-- A passphrase source whose method fails. -/
def failingPassphraseGetter : PassphraseGetter Unit :=
  { GetPassphrase := fun s => (.error (.external "cannot read passphrase"), s) }

/-- A stream is the list of the blocks written to it; decoding takes the first. -/
def listCodec : PEMCodec (List Block) :=
  { Encode := fun b => .ok [b]
    Decode := fun bs => bs.head? }

/-- A stand-in cipher: "encrypting" prefixes the payload with the passphrase and
marks the block with the two legacy headers; "decrypting" checks the header and
the prefix.  Ciphers 1 to 5 are known, as in `crypto/x509`. -/
def prefixCrypto : PEMCrypto :=
  { EncryptPEMBlock := fun blockType data password alg =>
      if 1 ≤ alg ∧ alg ≤ 5 then
        .ok { Type_ := blockType
              Headers := [("Proc-Type", "4,ENCRYPTED"), ("DEK-Info", "PREFIX,00")]
              Bytes := password ++ data }
      else .error (.external "x509: unknown encryption mode")
    DecryptPEMBlock := fun b password =>
      match b.Headers.lookup "DEK-Info" with
      | none => .error (.external "x509: no DEK-Info header in block")
      | some dek =>
        if dek == "PREFIX,00" then
          if password.isPrefixOf b.Bytes then .ok (b.Bytes.drop password.length)
          else .error (.external "x509: decryption password incorrect")
        else .error (.external "x509: malformed DEK-Info header") }

/-- A stand-in for `crypto/x509`: keys and public keys are serialised as flat
lists of numbers behind a one-number tag, the digest is a length and a sum, and
a created certificate is serialised as its serial number alone. -/
def flatX509 : X509 :=
  { ParseECPrivateKey := fun bytes =>
      match bytes with
      | [c, px, py, d] => .ok { Curve := if c = 0 then "P-256" else "P-384", X := px, Y := py, D := d }
      | _ => .error (.external "x509: failed to parse EC private key")
    ParsePKCS1PrivateKey := fun bytes =>
      match bytes with
      | n :: e :: d :: primes => .ok { N := n, E := e, D := d, Primes := primes }
      | _ => .error (.external "x509: failed to parse private key")
    ParsePKCS8PrivateKey := fun bytes =>
      match bytes with
      | 1 :: n :: e :: d :: primes =>
        .ok (.signer (.rsa { N := n, E := e, D := d, Primes := primes }))
      | [3, _] => .ok (.nonSigner "*ecdh.PrivateKey")
      | _ => .error (.external "x509: failed to parse private key")
    MarshalPKCS1PrivateKey := fun k => k.N :: k.E :: k.D :: k.Primes
    MarshalECPrivateKey := fun k =>
      if k.Curve = "P-256" then .ok [0, k.X, k.Y, k.D]
      else if k.Curve = "P-384" then .ok [1, k.X, k.Y, k.D]
      else .error (.external "x509: unknown elliptic curve")
    MarshalPKIXPublicKey := fun pub =>
      match pub with
      | .rsa n e => .ok [1, n, e]
      | .ecdsa _ px py => .ok [2, px, py]
      | .other _ => .error (.external "x509: unsupported public key type")
    ParseCertificate := fun bytes =>
      match bytes with
      | [serial] =>
        .ok { Raw := some bytes
              Subject :=
                { Country := [], Organization := [], OrganizationalUnit := [], Locality := [],
                  Province := [], StreetAddress := [], PostalCode := [], SerialNumber := "",
                  CommonName := "", Names := [], ExtraNames := [] }
              DNSNames := [], EmailAddresses := [], IPAddresses := []
              SerialNumber := some (serial : Int), SubjectKeyId := none
              NotBefore := 0, NotAfter := 0, BasicConstraintsValid := false, IsCA := false
              MaxPathLen := 0, MaxPathLenZero := false }
      | _ => .error (.external "x509: malformed certificate")
    ParseCertificateRequest := fun _ => .error (.external "x509: malformed certificate request")
    CreateCertificate := fun template _ _ _ =>
      match template.SerialNumber with
      | none => .error (.external "x509: no SerialNumber given")
      | some serial => .ok [serial.natAbs]
    CreateCertificateRequest := fun _ _ => .error (.external "x509: unsupported")
    Sum := fun data => [data.length, data.sum % 256] }

/-- A random source whose draw is always `value`, reduced into the range. -/
def fixedRand (value : Nat) : Rand :=
  { Int := fun max =>
      if max = 0 then .error (.external "crypto/rand: argument to Int is <= 0")
      else .ok (value % max) }

/-- A random source that fails. -/
def failingRand : Rand :=
  { Int := fun _ => .error (.external "unexpected EOF") }

/-- The empty `pkix.Name`. -/
def emptyName : Name :=
  { Country := [], Organization := [], OrganizationalUnit := [], Locality := [],
    Province := [], StreetAddress := [], PostalCode := [], SerialNumber := "",
    CommonName := "", Names := [], ExtraNames := [] }

/-- The zero `x509.Certificate`. -/
def emptyCertificate : Certificate :=
  { Raw := none, Subject := emptyName, DNSNames := [], EmailAddresses := [], IPAddresses := []
    SerialNumber := none, SubjectKeyId := none, NotBefore := 0, NotAfter := 0
    BasicConstraintsValid := false, IsCA := false, MaxPathLen := 0, MaxPathLenZero := false }

/-- A small RSA key. -/
def sampleRSAKey : RSAPrivateKey := { N := 3233, E := 17, D := 2753, Primes := [61, 53] }

/-- A request for `requested.example` with the public half of `sampleRSAKey`. -/
def sampleRequest : CertificateRequest :=
  { Raw := none, Subject := { emptyName with CommonName := "requested.example" }
    DNSNames := ["requested.example"], EmailAddresses := ["admin@requested.example"]
    IPAddresses := [[192, 0, 2, 1]], PublicKey := .rsa 3233 17 }

/-- An unencrypted key block. -/
def sampleBlock : Block := { Type_ := "RSA PRIVATE KEY", Headers := [], Bytes := [1, 2, 3] }

/-- The block `sampleBlock` as encrypted by `prefixCrypto` under the passphrase `[112]`. -/
def sampleEncryptedBlock : Block :=
  { Type_ := "RSA PRIVATE KEY"
    Headers := [("Proc-Type", "4,ENCRYPTED"), ("DEK-Info", "PREFIX,00")]
    Bytes := [112, 1, 2, 3] }

/-- A block that already carries a `DEK-Info` header. -/
def markedBlock : Block :=
  { Type_ := "RSA PRIVATE KEY", Headers := [("DEK-Info", "AES-128-CBC")], Bytes := [1, 2, 3] }

/-- An EC key on a curve the stand-in library knows. -/
def sampleECDSAKey : ECDSAPrivateKey := { Curve := "P-256", X := 5, Y := 9, D := 4 }

/-- A block tagged with the generic key tag whose payload the stand-in library
parses to a key that has no `Sign` method. -/
def nonSignerBlock : Block := { Type_ := "PRIVATE KEY", Headers := [], Bytes := [3, 7] }

/-- A template that forces its DNS names and leaves every other identity field empty. -/
def forcedTemplate : Certificate := { emptyCertificate with DNSNames := ["forced.example"] }

/-! ## Theorems: the PEM codec -/

/-- The list codec decodes what it encodes, and encodes every block. -/
theorem listCodec_inverse (blk : Block) :
    ∃ text, listCodec.Encode blk = .ok text ∧ listCodec.Decode text = some blk :=
  ⟨[blk], rfl, rfl⟩

/-- The prefix cipher decrypts what it encrypts: an encrypted block keeps the type
tag, is recognised as encrypted and decrypts to the data under the same
passphrase. -/
theorem prefixCrypto_inverse (blockType : String) (data password : Bytes) (alg : Nat)
    (e : Block) (h : prefixCrypto.EncryptPEMBlock blockType data password alg = .ok e) :
    e.Type_ = blockType ∧ IsEncryptedPEMBlock e = true ∧
      prefixCrypto.DecryptPEMBlock e password = .ok data := by
  simp only [prefixCrypto] at h
  split at h
  · simp only [Except.ok.injEq] at h
    subst h
    refine ⟨rfl, by simp [IsEncryptedPEMBlock], ?_⟩
    simp [prefixCrypto, List.lookup]
  · simp at h

/-- C3. `WriteEncryptedPEM` no-encryption policy.  When the cipher choice is 0 or
the passphrase source is absent, the source is not invoked (the world is
unchanged) and the block that reaches `WritePEM` is the input block itself.  When
a cipher is chosen and the source returns the empty passphrase, the block that
reaches `WritePEM` is again the input block itself, after that one invocation.
A block different from the input reaches `WritePEM` only when a cipher is chosen,
the source is present and the passphrase it returned is non-empty, and it is then
the result of the encryption primitive.  `WriteEncryptedPEM` writes exactly the
block that reaches `WritePEM`. -/
theorem WriteEncryptedPEM_no_encryption_policy {W σ : Type} (codec : PEMCodec W)
    (crypto : PEMCrypto) (b : Block) (pg : Option (PassphraseGetter σ)) (alg : Nat)
    (w : World σ) :
    ((alg = 0 ∨ pg = none) →
      WriteEncryptedPEM.block crypto b pg alg w = (.ok b, w) ∧
      WriteEncryptedPEM codec crypto b pg alg w = (maskResult (WritePEM codec b), w)) ∧
    (∀ g : PassphraseGetter σ, alg ≠ 0 → pg = some g →
      (g.GetPassphrase w.state).1 = .ok [] →
      WriteEncryptedPEM.block crypto b pg alg w = (.ok b, (g.invoke w).2) ∧
      WriteEncryptedPEM codec crypto b pg alg w
        = (maskResult (WritePEM codec b), (g.invoke w).2) ∧
      (g.invoke w).2.calls = w.calls + 1) ∧
    (∀ (b1 : Block) (w1 : World σ),
      WriteEncryptedPEM.block crypto b pg alg w = (.ok b1, w1) → b1 ≠ b →
      alg ≠ 0 ∧ ∃ g passphrase, pg = some g ∧ (g.GetPassphrase w.state).1 = .ok passphrase ∧
        passphrase ≠ [] ∧ crypto.EncryptPEMBlock b.Type_ b.Bytes passphrase alg = .ok b1) ∧
    (∀ (b1 : Block) (w1 : World σ),
      WriteEncryptedPEM.block crypto b pg alg w = (.ok b1, w1) →
      WriteEncryptedPEM codec crypto b pg alg w = (maskResult (WritePEM codec b1), w1)) := by
  refine ⟨?_, ?_, ?_, ?_⟩
  · rintro (h | h)
    · subst h
      simp [WriteEncryptedPEM, WriteEncryptedPEM.block]
    · subst h
      by_cases ha : alg = 0 <;> simp [WriteEncryptedPEM, WriteEncryptedPEM.block, ha]
  · intro g ha hpg hget
    subst hpg
    simp [WriteEncryptedPEM, WriteEncryptedPEM.block, ha, PassphraseGetter.invoke, hget]
  · intro b1 w1 hblock hne
    by_cases ha : alg = 0
    · subst ha
      simp [WriteEncryptedPEM.block] at hblock
      exact absurd hblock.1.symm hne
    · refine ⟨ha, ?_⟩
      cases pg with
      | none =>
        simp [WriteEncryptedPEM.block, ha] at hblock
        exact absurd hblock.1.symm hne
      | some g =>
        simp only [WriteEncryptedPEM.block, PassphraseGetter.invoke, bne_iff_ne, ne_eq, ha,
          not_false_eq_true, if_true] at hblock
        cases hget : (g.GetPassphrase w.state).1 with
        | error err => simp [hget] at hblock
        | ok passphrase =>
          simp only [hget] at hblock
          by_cases hp : passphrase.length > 0
          · simp only [hp, if_true] at hblock
            refine ⟨g, passphrase, rfl, hget, ?_, ?_⟩
            · intro h0
              simp [h0] at hp
            · cases henc : crypto.EncryptPEMBlock b.Type_ b.Bytes passphrase alg with
              | error err => simp [henc] at hblock
              | ok b2 =>
                simp only [henc, Prod.mk.injEq, Except.ok.injEq] at hblock
                rw [hblock.1]
          · simp only [hp, if_false, Prod.mk.injEq, Except.ok.injEq] at hblock
            exact absurd hblock.1.symm hne
  · intro b1 w1 hblock
    simp [WriteEncryptedPEM, hblock]

/-- Evaluation of C3 on the test doubles: with cipher 3 and a source returning
the empty passphrase the input block is written as it is, after one invocation;
with cipher 0 and with no source the input block is written and nothing is
invoked. -/
theorem WriteEncryptedPEM_no_encryption_policy_witness :
    WriteEncryptedPEM listCodec prefixCrypto sampleBlock (some (constPassphraseGetter [])) 3
        { state := (), calls := 0 }
      = (maskResult (WritePEM listCodec sampleBlock),
          ((constPassphraseGetter []).invoke { state := (), calls := 0 }).2) ∧
    WriteEncryptedPEM listCodec prefixCrypto sampleBlock (some (constPassphraseGetter [112])) 0
        { state := (), calls := 0 }
      = (maskResult (WritePEM listCodec sampleBlock), { state := (), calls := 0 }) ∧
    WriteEncryptedPEM listCodec prefixCrypto sampleBlock (none : Option (PassphraseGetter Unit)) 3
        { state := (), calls := 0 }
      = (maskResult (WritePEM listCodec sampleBlock), { state := (), calls := 0 }) :=
  ⟨((WriteEncryptedPEM_no_encryption_policy listCodec prefixCrypto sampleBlock
      (some (constPassphraseGetter [])) 3 { state := (), calls := 0 }).2.1
      (constPassphraseGetter []) (by decide) rfl rfl).2.1,
   ((WriteEncryptedPEM_no_encryption_policy listCodec prefixCrypto sampleBlock
      (some (constPassphraseGetter [112])) 0 { state := (), calls := 0 }).1 (Or.inl rfl)).2,
   ((WriteEncryptedPEM_no_encryption_policy listCodec prefixCrypto sampleBlock
      (none : Option (PassphraseGetter Unit)) 3 { state := (), calls := 0 }).1 (Or.inr rfl)).2⟩

/-- C4. `ReadEncryptedPEM` lazy passphrase fetch.  For a stream that decodes to
the block `b`: if `b` is not encrypted, the result is `b` and the world is
unchanged (no invocation), whatever the passphrase source; if `b` is encrypted,
the world afterwards is the world after exactly one invocation (the call count
is one more), an error of the source is returned to the caller, a successful
decryption yields `b` with only its payload replaced by the plaintext, and every
block returned has the type tag of `b` and the decrypted plaintext as payload. -/
theorem ReadEncryptedPEM_lazy_passphrase {W σ : Type} (codec : PEMCodec W)
    (crypto : PEMCrypto) (buf : W) (b : Block) (g : PassphraseGetter σ) (w : World σ)
    (hdec : codec.Decode buf = some b) :
    (IsEncryptedPEMBlock b = false →
      ∀ pg : Option (PassphraseGetter σ),
        ReadEncryptedPEM codec crypto (.ok buf) pg w = (.ok b, w)) ∧
    (IsEncryptedPEMBlock b = true →
      (ReadEncryptedPEM codec crypto (.ok buf) (some g) w).2 = (g.invoke w).2 ∧
      (ReadEncryptedPEM codec crypto (.ok buf) (some g) w).2.calls = w.calls + 1 ∧
      (∀ err, (g.GetPassphrase w.state).1 = .error err →
        (ReadEncryptedPEM codec crypto (.ok buf) (some g) w).1 = .error (.mask err)) ∧
      (∀ passphrase plain, (g.GetPassphrase w.state).1 = .ok passphrase →
        crypto.DecryptPEMBlock b passphrase = .ok plain →
        (ReadEncryptedPEM codec crypto (.ok buf) (some g) w).1
          = .ok { Type_ := b.Type_, Headers := b.Headers, Bytes := plain }) ∧
      (∀ blk, (ReadEncryptedPEM codec crypto (.ok buf) (some g) w).1 = .ok blk →
        blk.Type_ = b.Type_ ∧
        ∃ passphrase, (g.GetPassphrase w.state).1 = .ok passphrase ∧
          crypto.DecryptPEMBlock b passphrase = .ok blk.Bytes)) := by
  constructor
  · intro hplain pg
    simp [ReadEncryptedPEM, ReadPEM, hdec, hplain]
  · intro henc
    have hrun : ReadEncryptedPEM codec crypto (.ok buf) (some g) w =
        match g.invoke w with
        | (.error err, w1) => (.error (.mask err), w1)
        | (.ok passphrase, w1) =>
          match crypto.DecryptPEMBlock b passphrase with
          | .error err => (.error (.notef err "cannot decode block"), w1)
          | .ok bytes => (.ok { b with Bytes := bytes }, w1) := by
      simp [ReadEncryptedPEM, ReadPEM, hdec, henc]
    rw [hrun]
    simp only [PassphraseGetter.invoke]
    cases hget : (g.GetPassphrase w.state).1 with
    | error err => simp
    | ok passphrase =>
      cases hd : crypto.DecryptPEMBlock b passphrase with
      | error err =>
        simp only [hd, true_and]
        refine ⟨by simp, ?_, by simp⟩
        intro passphrase1 plain1 hp hd1
        simp only [Except.ok.injEq] at hp
        subst hp
        rw [hd] at hd1
        simp at hd1
      | ok plain =>
        simp only [hd, true_and]
        refine ⟨by simp, ?_, ?_⟩
        · intro passphrase1 plain1 hp hd1
          simp only [Except.ok.injEq] at hp
          subst hp
          rw [hd] at hd1
          simp only [Except.ok.injEq] at hd1
          rw [hd1]
        · intro blk hblk
          simp only [Outcome.ok.injEq] at hblk
          subst hblk
          exact ⟨rfl, passphrase, rfl, hd⟩

/-- Evaluation of C4 on the test doubles: reading the encrypted sample block with
a source that returns `[112]` invokes the source once and returns the block with
its payload decrypted; with a source that fails, the source's error is returned;
reading the unencrypted sample block invokes nothing. -/
theorem ReadEncryptedPEM_lazy_passphrase_witness :
    listCodec.Decode [sampleEncryptedBlock] = some sampleEncryptedBlock ∧
    (ReadEncryptedPEM listCodec prefixCrypto (.ok [sampleEncryptedBlock])
      (some (constPassphraseGetter [112])) { state := (), calls := 0 }).2.calls = 0 + 1 ∧
    (ReadEncryptedPEM listCodec prefixCrypto (.ok [sampleEncryptedBlock])
      (some (constPassphraseGetter [112])) { state := (), calls := 0 }).1
      = .ok { Type_ := sampleEncryptedBlock.Type_, Headers := sampleEncryptedBlock.Headers,
              Bytes := [1, 2, 3] } ∧
    (ReadEncryptedPEM listCodec prefixCrypto (.ok [sampleEncryptedBlock])
      (some failingPassphraseGetter) { state := (), calls := 0 }).1
      = .error (.mask (.external "cannot read passphrase")) ∧
    ReadEncryptedPEM listCodec prefixCrypto (.ok [sampleBlock])
      (some failingPassphraseGetter) { state := (), calls := 0 }
      = (.ok sampleBlock, { state := (), calls := 0 }) :=
  ⟨rfl,
   ((ReadEncryptedPEM_lazy_passphrase listCodec prefixCrypto [sampleEncryptedBlock]
      sampleEncryptedBlock (constPassphraseGetter [112]) { state := (), calls := 0 } rfl).2
      (by decide)).2.1,
   ((ReadEncryptedPEM_lazy_passphrase listCodec prefixCrypto [sampleEncryptedBlock]
      sampleEncryptedBlock (constPassphraseGetter [112]) { state := (), calls := 0 } rfl).2
      (by decide)).2.2.2.1 [112] [1, 2, 3] rfl rfl,
   ((ReadEncryptedPEM_lazy_passphrase listCodec prefixCrypto [sampleEncryptedBlock]
      sampleEncryptedBlock failingPassphraseGetter { state := (), calls := 0 } rfl).2
      (by decide)).2.2.1 (.external "cannot read passphrase") rfl,
   (ReadEncryptedPEM_lazy_passphrase listCodec prefixCrypto [sampleBlock]
      sampleBlock failingPassphraseGetter { state := (), calls := 0 } rfl).1
      (by decide) (some failingPassphraseGetter)⟩

/-- C2, as amended.  Encrypted PEM round trip.  Assume that the PEM codec
decodes what it encodes and that the decryption primitive inverts the encryption
primitive.  For every block, every non-empty passphrase `p` and every cipher
choice such that either the choice is not 0 and the encryption primitive accepts
it, or the choice is 0 and the block carries no `DEK-Info` header: writing the
block with `WriteEncryptedPEM` and a source that returns `p`, then reading what
was written with `ReadEncryptedPEM` and a source that returns `p`, succeeds and
yields a block with the original type tag and the original payload. -/
theorem encrypted_PEM_round_trip {W σ τ : Type} (codec : PEMCodec W) (crypto : PEMCrypto)
    (b : Block) (alg : Nat) (p : Bytes) (gw : PassphraseGetter σ) (gr : PassphraseGetter τ)
    (ww : World σ) (wr : World τ)
    (hp : p ≠ [])
    (hgw : ∀ s, (gw.GetPassphrase s).1 = .ok p)
    (hgr : ∀ s, (gr.GetPassphrase s).1 = .ok p)
    (hpem : ∀ blk, ∃ text, codec.Encode blk = .ok text ∧ codec.Decode text = some blk)
    (hcrypt : ∀ blockType data password a e,
      crypto.EncryptPEMBlock blockType data password a = .ok e →
      e.Type_ = blockType ∧ IsEncryptedPEMBlock e = true ∧
        crypto.DecryptPEMBlock e password = .ok data)
    (hcase : (alg ≠ 0 ∧ ∃ e, crypto.EncryptPEMBlock b.Type_ b.Bytes p alg = .ok e) ∨
      (alg = 0 ∧ IsEncryptedPEMBlock b = false)) :
    ∃ text, (WriteEncryptedPEM codec crypto b (some gw) alg ww).1 = .ok text ∧
      ∃ blk, (ReadEncryptedPEM codec crypto (.ok text) (some gr) wr).1 = .ok blk ∧
        blk.Type_ = b.Type_ ∧ blk.Bytes = b.Bytes := by
  have hlen : p.length > 0 := List.length_pos.mpr hp
  rcases hcase with ⟨ha, e, he⟩ | ⟨ha, hplain⟩
  · obtain ⟨text, henc, hdec⟩ := hpem e
    obtain ⟨hty, hmark, hdecrypt⟩ := hcrypt _ _ _ _ _ he
    refine ⟨text, ?_, ?_⟩
    · simp [WriteEncryptedPEM, WriteEncryptedPEM.block, ha, PassphraseGetter.invoke, hgw,
        hlen, he, WritePEM, maskResult, henc]
    · refine ⟨{ e with Bytes := b.Bytes }, ?_, hty, rfl⟩
      simp [ReadEncryptedPEM, ReadPEM, hdec, hmark, PassphraseGetter.invoke, hgr, hdecrypt]
  · obtain ⟨text, henc, hdec⟩ := hpem b
    subst ha
    refine ⟨text, ?_, b, ?_, rfl, rfl⟩
    · simp [WriteEncryptedPEM, WriteEncryptedPEM.block, WritePEM, maskResult, henc]
    · simp [ReadEncryptedPEM, ReadPEM, hdec, hplain]

/-- Evaluation of C2 as amended on the test doubles: the sample block written
under cipher 3 and passphrase `[112]` is read back with its type tag and
payload. -/
theorem encrypted_PEM_round_trip_witness :
    ∃ text, (WriteEncryptedPEM listCodec prefixCrypto sampleBlock
        (some (constPassphraseGetter [112])) 3 { state := (), calls := 0 }).1 = .ok text ∧
      ∃ blk, (ReadEncryptedPEM listCodec prefixCrypto (.ok text)
          (some (constPassphraseGetter [112])) { state := (), calls := 0 }).1 = .ok blk ∧
        blk.Type_ = sampleBlock.Type_ ∧ blk.Bytes = sampleBlock.Bytes :=
  encrypted_PEM_round_trip listCodec prefixCrypto sampleBlock 3 [112]
    (constPassphraseGetter [112]) (constPassphraseGetter [112])
    { state := (), calls := 0 } { state := (), calls := 0 }
    (by decide) (fun _ => rfl) (fun _ => rfl) listCodec_inverse prefixCrypto_inverse
    (Or.inl ⟨by decide, sampleEncryptedBlock, rfl⟩)

/-- C2 as stated fails.  The list codec and the prefix cipher satisfy the two
inverse laws, the passphrase `[112]` is not empty, and yet for the cipher choice
0 and a block that carries a `DEK-Info` header the write succeeds, writing the
block as it is, and the read of what was written fails: the block is taken for an
encrypted one and handed to the decryption primitive. -/
theorem encrypted_PEM_round_trip_counterexample :
    (∀ blk, ∃ text, listCodec.Encode blk = .ok text ∧ listCodec.Decode text = some blk) ∧
    (∀ blockType data password a e,
      prefixCrypto.EncryptPEMBlock blockType data password a = .ok e →
      e.Type_ = blockType ∧ IsEncryptedPEMBlock e = true ∧
        prefixCrypto.DecryptPEMBlock e password = .ok data) ∧
    ([112] : Bytes) ≠ [] ∧
    (WriteEncryptedPEM listCodec prefixCrypto markedBlock
      (some (constPassphraseGetter [112])) 0 { state := (), calls := 0 }).1
      = .ok [markedBlock] ∧
    (ReadEncryptedPEM listCodec prefixCrypto (.ok [markedBlock])
      (some (constPassphraseGetter [112])) { state := (), calls := 0 }).1
      = .error (.notef (.external "x509: malformed DEK-Info header") "cannot decode block") :=
  ⟨listCodec_inverse, prefixCrypto_inverse, by decide, rfl, rfl⟩

/-! ## Theorems: the key codec and the type tags -/

/-- The stand-in library parses the RSA keys it marshals. -/
theorem flatX509_rsa_inverse (k : RSAPrivateKey) :
    flatX509.ParsePKCS1PrivateKey (flatX509.MarshalPKCS1PrivateKey k) = .ok k := rfl

/-- The stand-in library parses the EC keys it marshals. -/
theorem flatX509_ec_inverse (k : ECDSAPrivateKey) (der : Bytes)
    (h : flatX509.MarshalECPrivateKey k = .ok der) :
    flatX509.ParseECPrivateKey der = .ok k := by
  obtain ⟨curve, px, py, d⟩ := k
  simp only [flatX509] at h
  split at h
  · simp only [Except.ok.injEq] at h
    subst h
    simp_all [flatX509]
  · split at h
    · simp only [Except.ok.injEq] at h
      subst h
      simp_all [flatX509]
    · simp at h

/-- C5. Key round trip.  Assume that the library parsers invert the library
marshalers.  For an RSA signer, and for an ECDSA signer that the library
marshals, `MarshalKey` yields a block; its type tag is `RSA PRIVATE KEY` for RSA
and `EC PRIVATE KEY` for ECDSA, never `PRIVATE KEY`; and `UnmarshalKey` of that
block succeeds with a signer that has the same public key (the same key). -/
theorem key_round_trip (x : X509) (key : Signer)
    (hrsa : ∀ k, x.ParsePKCS1PrivateKey (x.MarshalPKCS1PrivateKey k) = .ok k)
    (hec : ∀ k der, x.MarshalECPrivateKey k = .ok der → x.ParseECPrivateKey der = .ok k)
    (hkey : (∃ k, key = .rsa k) ∨
      (∃ k der, key = .ecdsa k ∧ x.MarshalECPrivateKey k = .ok der)) :
    ∃ b, MarshalKey x key = .ok b ∧
      ((∃ k, key = .rsa k) → b.Type_ = "RSA PRIVATE KEY") ∧
      ((∃ k, key = .ecdsa k) → b.Type_ = "EC PRIVATE KEY") ∧
      b.Type_ ≠ "PRIVATE KEY" ∧
      ∃ key1, UnmarshalKey x b = .ok key1 ∧ key1.Public = key.Public ∧ key1 = key := by
  rcases hkey with ⟨k, hk⟩ | ⟨k, der, hk, hder⟩
  · subst hk
    refine ⟨_, rfl, fun _ => rfl, ?_, by simp, .rsa k, ?_, rfl, rfl⟩
    · rintro ⟨k1, h1⟩
      cases h1
    · simp [UnmarshalKey, hrsa, Except.map]
  · subst hk
    refine ⟨{ Type_ := "EC PRIVATE KEY", Headers := [], Bytes := der }, ?_, ?_, fun _ => rfl,
      by simp, .ecdsa k, ?_, rfl, rfl⟩
    · simp [MarshalKey, hder]
    · rintro ⟨k1, h1⟩
      cases h1
    · simp [UnmarshalKey, hec k der hder, Except.map]

/-- Evaluation of C5 on the stand-in library, for the sample ECDSA key: the block
is tagged `EC PRIVATE KEY` and unmarshals to the same key. -/
theorem key_round_trip_witness :
    ∃ b, MarshalKey flatX509 (.ecdsa sampleECDSAKey) = .ok b ∧
      ((∃ k, Signer.ecdsa sampleECDSAKey = .rsa k) → b.Type_ = "RSA PRIVATE KEY") ∧
      ((∃ k, Signer.ecdsa sampleECDSAKey = .ecdsa k) → b.Type_ = "EC PRIVATE KEY") ∧
      b.Type_ ≠ "PRIVATE KEY" ∧
      ∃ key1, UnmarshalKey flatX509 b = .ok key1 ∧
        key1.Public = (Signer.ecdsa sampleECDSAKey).Public ∧ key1 = .ecdsa sampleECDSAKey :=
  key_round_trip flatX509 (.ecdsa sampleECDSAKey) flatX509_rsa_inverse flatX509_ec_inverse
    (Or.inr ⟨sampleECDSAKey, [0, 5, 9, 4], rfl, rfl⟩)

/-- C6, what the code does.  `UnmarshalKey` panics in its unchecked type assertion
exactly when the block is tagged `PRIVATE KEY` and the PKCS#8 parser accepts the
payload and parses it to a key of a type without a `Sign` method; it then returns
neither a signer nor an error.  On every other block it returns a signer or an
error. -/
theorem UnmarshalKey_panics_iff (x : X509) (b : Block) :
    ((∃ reason, UnmarshalKey x b = .panic reason) ↔
      (b.Type_ = "PRIVATE KEY" ∧
        ∃ typeName, x.ParsePKCS8PrivateKey b.Bytes = .ok (.nonSigner typeName))) ∧
    ((∃ reason, UnmarshalKey x b = .panic reason) ∨ (∃ s, UnmarshalKey x b = .ok s) ∨
      (∃ err, UnmarshalKey x b = .error err)) := by
  by_cases h1 : b.Type_ = "EC PRIVATE KEY"
  · cases hp : x.ParseECPrivateKey b.Bytes <;> simp [UnmarshalKey, h1, hp, Except.map]
  · by_cases h2 : b.Type_ = "RSA PRIVATE KEY"
    · cases hp : x.ParsePKCS1PrivateKey b.Bytes <;> simp [UnmarshalKey, h2, hp, Except.map]
    · by_cases h3 : b.Type_ = "PRIVATE KEY"
      · cases hp : x.ParsePKCS8PrivateKey b.Bytes with
        | error err => simp [UnmarshalKey, h3, hp]
        | ok k => cases k <;> simp [UnmarshalKey, h3, hp]
      · simp [UnmarshalKey, h1, h2, h3]

/-- Evaluation of C6 on the stand-in library: `UnmarshalKey` panics on the block
`nonSignerBlock`. -/
theorem UnmarshalKey_panics_witness :
    ∃ reason, UnmarshalKey flatX509 nonSignerBlock = .panic reason :=
  (UnmarshalKey_panics_iff flatX509 nonSignerBlock).1.mpr ⟨rfl, "*ecdh.PrivateKey", rfl⟩

/-- C7. Type-tag strictness.  Whatever the library parsers would return for the
payload: `UnmarshalCertificate` fails on every tag other than `CERTIFICATE`,
`UnmarshalCertificateRequest` fails on every tag other than
`CERTIFICATE REQUEST`, and `UnmarshalKey` fails on every tag other than
`EC PRIVATE KEY`, `RSA PRIVATE KEY` and `PRIVATE KEY`.  The error names the tag
only and is the same for every library, so no parser result enters it. -/
theorem unmarshal_type_tag_strictness (x : X509) (b : Block) :
    (b.Type_ ≠ "CERTIFICATE" →
      UnmarshalCertificate x b = .error (.newf "unsupported certificate type %q" b.Type_)) ∧
    (b.Type_ ≠ "CERTIFICATE REQUEST" →
      UnmarshalCertificateRequest x b
        = .error (.newf "unsupported certificate request type %q" b.Type_)) ∧
    (b.Type_ ≠ "EC PRIVATE KEY" → b.Type_ ≠ "RSA PRIVATE KEY" → b.Type_ ≠ "PRIVATE KEY" →
      UnmarshalKey x b = .error (.newf "unsupported key type %q" b.Type_)) := by
  refine ⟨?_, ?_, ?_⟩
  · intro h
    simp [UnmarshalCertificate, h]
  · intro h
    simp [UnmarshalCertificateRequest, h]
  · intro h1 h2 h3
    simp [UnmarshalKey, h1, h2, h3]

/-- Evaluation of C7: a library whose parsers accept every payload still sees
`UnmarshalCertificate` fail on a `CERTIFICATE REQUEST` block,
`UnmarshalCertificateRequest` fail on a `CERTIFICATE` block and `UnmarshalKey`
fail on a `PUBLIC KEY` block. -/
theorem unmarshal_type_tag_strictness_witness :
    UnmarshalCertificate
        { flatX509 with ParseCertificate := fun _ => .ok emptyCertificate }
        { Type_ := "CERTIFICATE REQUEST", Headers := [], Bytes := [1] }
      = .error (.newf "unsupported certificate type %q" "CERTIFICATE REQUEST") ∧
    UnmarshalCertificateRequest
        { flatX509 with ParseCertificateRequest := fun _ => .ok sampleRequest }
        { Type_ := "CERTIFICATE", Headers := [], Bytes := [1] }
      = .error (.newf "unsupported certificate request type %q" "CERTIFICATE") ∧
    UnmarshalKey flatX509 { Type_ := "PUBLIC KEY", Headers := [], Bytes := [1, 3233, 17, 2753] }
      = .error (.newf "unsupported key type %q" "PUBLIC KEY") :=
  ⟨(unmarshal_type_tag_strictness _
      { Type_ := "CERTIFICATE REQUEST", Headers := [], Bytes := [1] }).1 (by decide),
   (unmarshal_type_tag_strictness _
      { Type_ := "CERTIFICATE", Headers := [], Bytes := [1] }).2.1 (by decide),
   (unmarshal_type_tag_strictness flatX509
      { Type_ := "PUBLIC KEY", Headers := [], Bytes := [1, 3233, 17, 2753] }).2.2
      (by decide) (by decide) (by decide)⟩

/-! ## Theorems: template defaulting and signing -/

/-- The bound passed to `rand.Int`: one shifted left by `20*8` bits. -/
theorem serial_bound_eq : (1 : Nat) <<< (20 * 8) = 2 ^ 160 := by
  simp [Nat.shiftLeft_eq]

/-- The defaulting step leaves the four identity fields of the template alone. -/
theorem generateCertificateValues_identity (x : X509) (rnd : Rand) (template : Certificate)
    (publicKey : PublicKey) :
    (generateCertificateValues x rnd template publicKey).1.Subject = template.Subject ∧
    (generateCertificateValues x rnd template publicKey).1.DNSNames = template.DNSNames ∧
    (generateCertificateValues x rnd template publicKey).1.EmailAddresses
      = template.EmailAddresses ∧
    (generateCertificateValues x rnd template publicKey).1.IPAddresses
      = template.IPAddresses := by
  cases hs : template.SerialNumber <;> cases hk : template.SubjectKeyId <;>
    cases hr : rnd.Int (1 <<< (20 * 8)) <;> cases hm : x.MarshalPKIXPublicKey publicKey <;>
    simp_all [generateCertificateValues]

/-- The identity merge of `SignCertificate` leaves serial number and subject key
identifier of the template alone. -/
theorem SignCertificate_merged_defaults (csr : CertificateRequest) (params : Certificate) :
    (SignCertificate.merged csr params).SerialNumber = params.SerialNumber ∧
    (SignCertificate.merged csr params).SubjectKeyId = params.SubjectKeyId := by
  simp only [SignCertificate.merged]
  split_ifs <;> simp

/-- C8. Subject-key-identifier defaulting, for every template, public key, library
and random source.  A `SubjectKeyId` that is present is unchanged.  If it is
absent, the step reports no error and PKIX-marshaling of the public key yields
`der`, then `SubjectKeyId` is the digest of `der`.  If it is absent and marshaling
fails, `SubjectKeyId` stays absent, and the step reports no error whenever the
serial number was present or could be drawn.  A failed draw of the serial number
is reported as an error, whatever marshaling does.  `SelfSignCertificate` runs
the step on the signer's own public key and `SignCertificate` on the public key
of the request, with the `SubjectKeyId` of the caller's template. -/
theorem subject_key_id_defaulting (x : X509) (rnd : Rand) (template : Certificate)
    (publicKey : PublicKey) :
    (∀ k, template.SubjectKeyId = some k →
      (generateCertificateValues x rnd template publicKey).1.SubjectKeyId = some k) ∧
    (∀ der, template.SubjectKeyId = none →
      (generateCertificateValues x rnd template publicKey).2 = none →
      x.MarshalPKIXPublicKey publicKey = .ok der →
      (generateCertificateValues x rnd template publicKey).1.SubjectKeyId
        = some (x.Sum der)) ∧
    (∀ err, template.SubjectKeyId = none →
      x.MarshalPKIXPublicKey publicKey = .error err →
      (generateCertificateValues x rnd template publicKey).1.SubjectKeyId = none ∧
      ((template.SerialNumber ≠ none ∨ ∃ n, rnd.Int (2 ^ 160) = .ok n) →
        (generateCertificateValues x rnd template publicKey).2 = none)) ∧
    (∀ err, template.SerialNumber = none → rnd.Int (2 ^ 160) = .error err →
      (generateCertificateValues x rnd template publicKey).2
        = some (.notef err "cannot generate serial number")) ∧
    (∀ (params : Certificate) (key : Signer),
      SelfSignCertificate.prepared x rnd params key
        = generateCertificateValues x rnd params key.Public) ∧
    (∀ (csr : CertificateRequest) (params : Certificate),
      SignCertificate.prepared x rnd csr params
        = generateCertificateValues x rnd (SignCertificate.merged csr params) csr.PublicKey ∧
      (SignCertificate.merged csr params).SubjectKeyId = params.SubjectKeyId) := by
  refine ⟨?_, ?_, ?_, ?_, fun _ _ => rfl,
    fun csr params => ⟨rfl, (SignCertificate_merged_defaults csr params).2⟩⟩
  · intro k hk
    cases hs : template.SerialNumber <;> cases hr : rnd.Int (1 <<< (20 * 8)) <;>
      simp_all [generateCertificateValues]
  · intro der hk hok hm
    cases hs : template.SerialNumber <;> cases hr : rnd.Int (1 <<< (20 * 8)) <;>
      simp_all [generateCertificateValues]
  · intro err hk hm
    rw [← serial_bound_eq]
    cases hs : template.SerialNumber <;> cases hr : rnd.Int (1 <<< (20 * 8)) <;>
      simp_all [generateCertificateValues]
  · intro err hs hr
    rw [← serial_bound_eq] at hr
    simp_all [generateCertificateValues]

/-- Evaluation of C8 on the stand-in library: an absent identifier becomes the
digest of the marshaled RSA public key; a present one is kept; for a public key
the library cannot marshal the identifier stays absent and no error is reported;
a failing random source is reported. -/
theorem subject_key_id_defaulting_witness :
    (generateCertificateValues flatX509 (fixedRand 7) emptyCertificate (.rsa 3233 17)).1.SubjectKeyId
      = some (flatX509.Sum [1, 3233, 17]) ∧
    (generateCertificateValues flatX509 (fixedRand 7)
      { emptyCertificate with SubjectKeyId := some [9, 9] } (.rsa 3233 17)).1.SubjectKeyId
      = some [9, 9] ∧
    ((generateCertificateValues flatX509 (fixedRand 7) emptyCertificate
        (.other "ed448")).1.SubjectKeyId = none ∧
      (((emptyCertificate.SerialNumber ≠ none) ∨ ∃ n, (fixedRand 7).Int (2 ^ 160) = .ok n) →
        (generateCertificateValues flatX509 (fixedRand 7) emptyCertificate
          (.other "ed448")).2 = none)) ∧
    (generateCertificateValues flatX509 failingRand emptyCertificate (.other "ed448")).2
      = some (.notef (.external "unexpected EOF") "cannot generate serial number") :=
  ⟨(subject_key_id_defaulting flatX509 (fixedRand 7) emptyCertificate (.rsa 3233 17)).2.1
      [1, 3233, 17] rfl rfl rfl,
   (subject_key_id_defaulting flatX509 (fixedRand 7)
      { emptyCertificate with SubjectKeyId := some [9, 9] } (.rsa 3233 17)).1 [9, 9] rfl,
   (subject_key_id_defaulting flatX509 (fixedRand 7) emptyCertificate (.other "ed448")).2.2.1
      (.external "x509: unsupported public key type") rfl rfl,
   (subject_key_id_defaulting flatX509 failingRand emptyCertificate (.other "ed448")).2.2.2.1
      (.external "unexpected EOF") rfl rfl⟩

/-- A fixed random source keeps the contract of `rand.Int`: the draw is below the bound. -/
theorem fixedRand_bound (value max n : Nat) (h : (fixedRand value).Int max = .ok n) :
    n < max := by
  simp only [fixedRand] at h
  split at h
  · simp at h
  · rename_i hmax
    simp only [Except.ok.injEq] at h
    subst h
    exact Nat.mod_lt _ (Nat.pos_of_ne_zero hmax)

/-- C9. Serial-number defaulting range.  Assume the contract of `rand.Int`: a value
it returns is below the bound it was given.  Whenever the defaulting step
succeeds: a serial number the template had is the serial number afterwards, and
it is so for every random source; if the template had none, the serial number
afterwards is an integer `n` with `0 ≤ n < 2^160`. -/
theorem serial_number_defaulting_range (x : X509) (rnd : Rand) (template : Certificate)
    (publicKey : PublicKey)
    (hrand : ∀ max n, rnd.Int max = .ok n → n < max)
    (hok : (generateCertificateValues x rnd template publicKey).2 = none) :
    (∀ s, template.SerialNumber = some s →
      ∀ rnd1 : Rand,
        (generateCertificateValues x rnd1 template publicKey).1.SerialNumber = some s ∧
        (generateCertificateValues x rnd1 template publicKey).2 = none) ∧
    (template.SerialNumber = none →
      ∃ n : Int, (generateCertificateValues x rnd template publicKey).1.SerialNumber = some n ∧
        0 ≤ n ∧ n < 2 ^ 160) := by
  constructor
  · intro s hs rnd1
    cases hk : template.SubjectKeyId <;> cases hm : x.MarshalPKIXPublicKey publicKey <;>
      simp_all [generateCertificateValues]
  · intro hs
    cases hr : rnd.Int (1 <<< (20 * 8)) with
    | error err => simp_all [generateCertificateValues]
    | ok n =>
      have hlt : n < 2 ^ 160 := by
        have := hrand _ _ hr
        rwa [serial_bound_eq] at this
      refine ⟨(n : Int), ?_, Int.natCast_nonneg n, by exact_mod_cast hlt⟩
      cases hk : template.SubjectKeyId <;> cases hm : x.MarshalPKIXPublicKey publicKey <;>
        simp_all [generateCertificateValues]

/-- Evaluation of C9 on the stand-in library with a random source that draws
`2^160 + 5`, reduced into the range by the source. -/
theorem serial_number_defaulting_range_witness :
    (∀ s, emptyCertificate.SerialNumber = some s →
      ∀ rnd1 : Rand,
        (generateCertificateValues flatX509 rnd1 emptyCertificate
          (.rsa 3233 17)).1.SerialNumber = some s ∧
        (generateCertificateValues flatX509 rnd1 emptyCertificate (.rsa 3233 17)).2 = none) ∧
    (emptyCertificate.SerialNumber = none →
      ∃ n : Int, (generateCertificateValues flatX509 (fixedRand (2 ^ 160 + 5)) emptyCertificate
          (.rsa 3233 17)).1.SerialNumber = some n ∧ 0 ≤ n ∧ n < 2 ^ 160) :=
  serial_number_defaulting_range flatX509 (fixedRand (2 ^ 160 + 5)) emptyCertificate
    (.rsa 3233 17) (fixedRand_bound (2 ^ 160 + 5)) rfl

/-- The serial number after the defaulting step, when the step succeeds: it is
present, and it is the one of the template or, if there was none, the draw. -/
theorem generateCertificateValues_serial (x : X509) (rnd : Rand) (template : Certificate)
    (publicKey : PublicKey)
    (hok : (generateCertificateValues x rnd template publicKey).2 = none) :
    ∃ n : Int, (generateCertificateValues x rnd template publicKey).1.SerialNumber = some n ∧
      (template.SerialNumber = some n ∨
        (template.SerialNumber = none ∧ ∃ m : Nat, rnd.Int (2 ^ 160) = .ok m ∧ n = (m : Int))) := by
  rw [← serial_bound_eq]
  cases hs : template.SerialNumber with
  | some s =>
    refine ⟨s, ?_, Or.inl rfl⟩
    cases hk : template.SubjectKeyId <;> cases hm : x.MarshalPKIXPublicKey publicKey <;>
      simp_all [generateCertificateValues]
  | none =>
    cases hr : rnd.Int (1 <<< (20 * 8)) with
    | error err => simp_all [generateCertificateValues]
    | ok m =>
      refine ⟨(m : Int), ?_, Or.inr ⟨rfl, m, rfl, rfl⟩⟩
      cases hk : template.SubjectKeyId <;> cases hm : x.MarshalPKIXPublicKey publicKey <;>
        simp_all [generateCertificateValues]

/-- From where the serial number after the defaulting step comes, spelled out: a
draw is a non-negative integer, it is below `2^160` under the contract of
`rand.Int`, and the serial number is zero only for a supplied zero or a zero draw. -/
theorem serial_source_consequences (rnd : Rand) (supplied : Option Int) (n : Int)
    (h : supplied = some n ∨
      (supplied = none ∧ ∃ m : Nat, rnd.Int (2 ^ 160) = .ok m ∧ n = (m : Int))) :
    (supplied = some n ∨
      (supplied = none ∧ ∃ m : Nat, rnd.Int (2 ^ 160) = .ok m ∧ n = (m : Int) ∧ 0 ≤ n ∧
        ((∀ max k, rnd.Int max = .ok k → k < max) → n < 2 ^ 160))) ∧
    (n = 0 → supplied = some 0 ∨ (supplied = none ∧ rnd.Int (2 ^ 160) = .ok 0)) := by
  rcases h with h | ⟨h, m, hm, hnm⟩
  · refine ⟨Or.inl h, fun h0 => Or.inl ?_⟩
    rw [h, h0]
  · subst hnm
    refine ⟨Or.inr ⟨h, m, hm, rfl, Int.natCast_nonneg m, fun hrand => ?_⟩, fun h0 => Or.inr ⟨h, ?_⟩⟩
    · have hlt : m < 2 ^ 160 := hrand _ _ hm
      exact_mod_cast hlt
    · have hm0 : m = 0 := by exact_mod_cast h0
      rw [hm, hm0]

/-- C10, as amended.  No absent serial in signed output.  Whenever the defaulting
step of `SelfSignCertificate` or of `SignCertificate` succeeds, the serial number
`n` of the template handed to `x509.CreateCertificate` is present, and the call is
made with that template.  It is the serial number the caller supplied, or, if the
caller supplied none, it is the value that `rand.Int` drew for the bound `2^160`,
a non-negative integer that is below `2^160` whenever the random source keeps the
contract of `rand.Int`.  So it is zero only if the caller supplied zero or the
draw was zero. -/
theorem serial_number_present_in_signed_template (x : X509) (rnd : Rand) :
    (∀ (params : Certificate) (key : Signer),
      (SelfSignCertificate.prepared x rnd params key).2 = none →
      (∃ n : Int, (SelfSignCertificate.prepared x rnd params key).1.SerialNumber = some n ∧
        (params.SerialNumber = some n ∨
          (params.SerialNumber = none ∧
            ∃ m : Nat, rnd.Int (2 ^ 160) = .ok m ∧ n = (m : Int) ∧ 0 ≤ n ∧
              ((∀ max k, rnd.Int max = .ok k → k < max) → n < 2 ^ 160))) ∧
        (n = 0 → params.SerialNumber = some 0 ∨
          (params.SerialNumber = none ∧ rnd.Int (2 ^ 160) = .ok 0))) ∧
      SelfSignCertificate x rnd params key
        = parseCreated x (x.CreateCertificate (SelfSignCertificate.prepared x rnd params key).1
            (SelfSignCertificate.prepared x rnd params key).1 key.Public key)) ∧
    (∀ (csr : CertificateRequest) (params parent : Certificate) (key : Signer),
      (SignCertificate.prepared x rnd csr params).2 = none →
      (∃ n : Int, (SignCertificate.prepared x rnd csr params).1.SerialNumber = some n ∧
        (params.SerialNumber = some n ∨
          (params.SerialNumber = none ∧
            ∃ m : Nat, rnd.Int (2 ^ 160) = .ok m ∧ n = (m : Int) ∧ 0 ≤ n ∧
              ((∀ max k, rnd.Int max = .ok k → k < max) → n < 2 ^ 160))) ∧
        (n = 0 → params.SerialNumber = some 0 ∨
          (params.SerialNumber = none ∧ rnd.Int (2 ^ 160) = .ok 0))) ∧
      SignCertificate x rnd csr params parent key
        = parseCreated x (x.CreateCertificate (SignCertificate.prepared x rnd csr params).1
            parent csr.PublicKey key)) := by
  constructor
  · intro params key hok
    constructor
    · obtain ⟨n, hn, hsrc⟩ := generateCertificateValues_serial x rnd params key.Public hok
      exact ⟨n, hn, serial_source_consequences rnd params.SerialNumber n hsrc⟩
    · cases hprep : SelfSignCertificate.prepared x rnd params key with
      | mk t err =>
        rw [hprep] at hok
        simp only at hok
        subst hok
        simp [SelfSignCertificate, hprep]
  · intro csr params parent key hok
    have hprepared : SignCertificate.prepared x rnd csr params
        = generateCertificateValues x rnd (SignCertificate.merged csr params) csr.PublicKey :=
      rfl
    constructor
    · rw [hprepared] at hok ⊢
      obtain ⟨n, hn, hsrc⟩ :=
        generateCertificateValues_serial x rnd (SignCertificate.merged csr params)
          csr.PublicKey hok
      rw [(SignCertificate_merged_defaults csr params).1] at hsrc
      exact ⟨n, hn, serial_source_consequences rnd params.SerialNumber n hsrc⟩
    · simp only [SignCertificate]
      generalize SignCertificate.prepared x rnd csr params = r at hok
      obtain ⟨t, err⟩ := r
      simp only at hok
      subst hok
      rfl

/-- Evaluation of C10 as amended on the stand-in library.  Self-signing a template
with the serial number 5 under a random source that draws 7 hands the serial
number 5 to the creation primitive; signing the sample request against the empty
template hands over a serial number that is present and comes from the caller or
from the draw. -/
theorem serial_number_present_in_signed_template_witness :
    (SelfSignCertificate.prepared flatX509 (fixedRand 7)
      { emptyCertificate with SerialNumber := some 5 } (.rsa sampleRSAKey)).1.SerialNumber
      = some 5 ∧
    (∃ n : Int, (SignCertificate.prepared flatX509 (fixedRand 7) sampleRequest
        emptyCertificate).1.SerialNumber = some n ∧
      (emptyCertificate.SerialNumber = some n ∨
        (emptyCertificate.SerialNumber = none ∧
          ∃ m : Nat, (fixedRand 7).Int (2 ^ 160) = .ok m ∧ n = (m : Int) ∧ 0 ≤ n ∧
            ((∀ max k, (fixedRand 7).Int max = .ok k → k < max) → n < 2 ^ 160))) ∧
      (n = 0 → emptyCertificate.SerialNumber = some 0 ∨
        (emptyCertificate.SerialNumber = none ∧ (fixedRand 7).Int (2 ^ 160) = .ok 0))) := by
  refine ⟨?_, ((serial_number_present_in_signed_template flatX509 (fixedRand 7)).2
    sampleRequest emptyCertificate emptyCertificate (.rsa sampleRSAKey) rfl).1⟩
  obtain ⟨n, hn, hsrc, _⟩ :=
    ((serial_number_present_in_signed_template flatX509 (fixedRand 7)).1
      { emptyCertificate with SerialNumber := some 5 } (.rsa sampleRSAKey) rfl).1
  rcases hsrc with h | ⟨h, _⟩
  · rw [hn]
    exact h.symm
  · cases h

/-- C10 as stated fails.  The defaulting step succeeds and the template handed to
the creation primitive has the serial number zero, both when the caller supplies
the serial number zero (self-signing) and when the caller supplies none and the
random source draws zero (signing a request). -/
theorem serial_number_zero_counterexample :
    (SelfSignCertificate.prepared flatX509 (fixedRand 7)
      { emptyCertificate with SerialNumber := some 0 } (.rsa sampleRSAKey)).2 = none ∧
    (SelfSignCertificate.prepared flatX509 (fixedRand 7)
      { emptyCertificate with SerialNumber := some 0 } (.rsa sampleRSAKey)).1.SerialNumber
      = some 0 ∧
    (SignCertificate.prepared flatX509 (fixedRand 0) sampleRequest emptyCertificate).2 = none ∧
    (SignCertificate.prepared flatX509 (fixedRand 0) sampleRequest
      emptyCertificate).1.SerialNumber = some 0 :=
  ⟨rfl, rfl, rfl, rfl⟩

/-- A string has length zero exactly when it is the empty string. -/
theorem string_length_eq_zero_iff (s : String) : s.length = 0 ↔ s = "" := by
  obtain ⟨l⟩ := s
  cases l with
  | nil => simp [String.length]
  | cons c cs => simp [String.length, String.ext_iff]

/-- With no extra names, `appendRDNs` yields the empty sequence exactly when it
was given the empty sequence and no values. -/
theorem appendRDNs_eq_nil_iff (n : Name) (acc : List (List AttributeTypeAndValue))
    (values : List String) (oid : List Nat) (hextra : n.ExtraNames = []) :
    n.appendRDNs acc values oid = [] ↔ acc = [] ∧ values = [] := by
  cases values with
  | nil => simp [Name.appendRDNs]
  | cons v vs => simp [Name.appendRDNs, oidInAttributeTypeAndValue, hextra]

/-- The sequence `ToRDNSequence` is empty exactly when the name has no attribute
in any field that is marshaled: every field other than `Names` is empty. -/
theorem ToRDNSequence_eq_nil_iff (n : Name) :
    n.ToRDNSequence = [] ↔
      n.Country = [] ∧ n.Province = [] ∧ n.Locality = [] ∧ n.StreetAddress = [] ∧
      n.PostalCode = [] ∧ n.Organization = [] ∧ n.OrganizationalUnit = [] ∧
      n.CommonName = "" ∧ n.SerialNumber = "" ∧ n.ExtraNames = [] := by
  by_cases hextra : n.ExtraNames = []
  · have hc := string_length_eq_zero_iff n.CommonName
    have hs := string_length_eq_zero_iff n.SerialNumber
    by_cases hcn : n.CommonName.length = 0 <;> by_cases hsn : n.SerialNumber.length = 0 <;>
      simp [Name.ToRDNSequence, hextra, appendRDNs_eq_nil_iff, hcn, hsn, ← hc, ← hs,
        Nat.pos_iff_ne_zero]
    tauto
  · simp [Name.ToRDNSequence, hextra]

/-- C1. `SignCertificate` identity merge.  For every request and every template,
the template handed to `x509.CreateCertificate` carries, for each of the four
fields separately, the template's own value when that value is non-empty and the
request's value when it is empty; the value of a field is a function of the
template's and the request's value of that same field and of nothing else.  A
subject is empty when its `ToRDNSequence` is, that is, when it has no attribute
outside `Names`.  When the defaulting step succeeds, `SignCertificate` calls the
creation primitive with that template. -/
theorem SignCertificate_identity_merge (x : X509) (rnd : Rand) (csr : CertificateRequest)
    (params parent : Certificate) (key : Signer) :
    (SignCertificate.prepared x rnd csr params).1.Subject
      = (if params.Subject.ToRDNSequence = [] then csr.Subject else params.Subject) ∧
    (SignCertificate.prepared x rnd csr params).1.DNSNames
      = (if params.DNSNames = [] then csr.DNSNames else params.DNSNames) ∧
    (SignCertificate.prepared x rnd csr params).1.EmailAddresses
      = (if params.EmailAddresses = [] then csr.EmailAddresses else params.EmailAddresses) ∧
    (SignCertificate.prepared x rnd csr params).1.IPAddresses
      = (if params.IPAddresses = [] then csr.IPAddresses else params.IPAddresses) ∧
    (params.Subject.ToRDNSequence = [] ↔
      params.Subject.Country = [] ∧ params.Subject.Province = [] ∧
      params.Subject.Locality = [] ∧ params.Subject.StreetAddress = [] ∧
      params.Subject.PostalCode = [] ∧ params.Subject.Organization = [] ∧
      params.Subject.OrganizationalUnit = [] ∧ params.Subject.CommonName = "" ∧
      params.Subject.SerialNumber = "" ∧ params.Subject.ExtraNames = []) ∧
    ((SignCertificate.prepared x rnd csr params).2 = none →
      SignCertificate x rnd csr params parent key
        = parseCreated x (x.CreateCertificate (SignCertificate.prepared x rnd csr params).1
            parent csr.PublicKey key)) := by
  have hprepared : SignCertificate.prepared x rnd csr params
      = generateCertificateValues x rnd (SignCertificate.merged csr params) csr.PublicKey :=
    rfl
  obtain ⟨h1, h2, h3, h4⟩ :=
    generateCertificateValues_identity x rnd (SignCertificate.merged csr params) csr.PublicKey
  refine ⟨?_, ?_, ?_, ?_, ToRDNSequence_eq_nil_iff params.Subject, ?_⟩
  · rw [hprepared, h1]
    simp only [SignCertificate.merged]
    split_ifs <;> simp_all
  · rw [hprepared, h2]
    simp only [SignCertificate.merged]
    split_ifs <;> simp_all
  · rw [hprepared, h3]
    simp only [SignCertificate.merged]
    split_ifs <;> simp_all
  · rw [hprepared, h4]
    simp only [SignCertificate.merged]
    split_ifs <;> simp_all
  · intro hok
    simp only [SignCertificate]
    generalize SignCertificate.prepared x rnd csr params = r at hok
    obtain ⟨t, err⟩ := r
    simp only at hok
    subst hok
    rfl

/-- Evaluation of C1 on the example of the specification: a request for
`requested.example` signed against a template that forces `forced.example` gets
`forced.example`, with subject, email addresses and IP addresses still taken from
the request; signed against the empty template it gets `requested.example`. -/
theorem SignCertificate_identity_merge_witness :
    (SignCertificate.prepared flatX509 (fixedRand 7) sampleRequest forcedTemplate).1.DNSNames
      = ["forced.example"] ∧
    (SignCertificate.prepared flatX509 (fixedRand 7) sampleRequest forcedTemplate).1.Subject
      = sampleRequest.Subject ∧
    (SignCertificate.prepared flatX509 (fixedRand 7) sampleRequest
      forcedTemplate).1.EmailAddresses = ["admin@requested.example"] ∧
    (SignCertificate.prepared flatX509 (fixedRand 7) sampleRequest forcedTemplate).1.IPAddresses
      = [[192, 0, 2, 1]] ∧
    (SignCertificate.prepared flatX509 (fixedRand 7) sampleRequest emptyCertificate).1.DNSNames
      = ["requested.example"] := by
  have hf := SignCertificate_identity_merge flatX509 (fixedRand 7) sampleRequest forcedTemplate
    emptyCertificate (.rsa sampleRSAKey)
  have he := SignCertificate_identity_merge flatX509 (fixedRand 7) sampleRequest
    emptyCertificate emptyCertificate (.rsa sampleRSAKey)
  refine ⟨hf.2.1.trans ?_, hf.1.trans ?_, hf.2.2.1.trans ?_, hf.2.2.2.1.trans ?_,
    he.2.1.trans ?_⟩ <;> decide

/-! ## Theorems: cipher selection -/

/-- A name outside the six keys of `ciphers` is not found in the map. -/
theorem ciphers_lookup_none (s : String) (h0 : s ≠ "") (h1 : s ≠ "des") (h2 : s ≠ "3des")
    (h3 : s ≠ "aes128") (h4 : s ≠ "aes192") (h5 : s ≠ "aes256") :
    ciphers.lookup s = none := by
  have e0 : (s == "") = false := beq_eq_false_iff_ne.mpr h0
  have e1 : (s == "des") = false := beq_eq_false_iff_ne.mpr h1
  have e2 : (s == "3des") = false := beq_eq_false_iff_ne.mpr h2
  have e3 : (s == "aes128") = false := beq_eq_false_iff_ne.mpr h3
  have e4 : (s == "aes192") = false := beq_eq_false_iff_ne.mpr h4
  have e5 : (s == "aes256") = false := beq_eq_false_iff_ne.mpr h5
  simp only [ciphers, List.lookup, e0, e1, e2, e3, e4, e5]

/-- C11, what the code does.  `Set` accepts each of the six names of the map and
stores it; `cipher` then selects no encryption for the empty name, DES for `des`,
3DES for `3des`, AES-128 for `aes128` and AES-192 for `aes192`.  For `aes256` it
selects AES-192 and not AES-256: the names `aes192` and `aes256`, although
distinct, select the same cipher, and no name selects AES-256.  Every other name
is rejected by `Set`, which leaves the variable as it was. -/
theorem cipher_selection_by_name (v : cipherVar) :
    (∀ s, s ∈ ["", "des", "3des", "aes128", "aes192", "aes256"] →
      v.Set s = ({ value := s }, none)) ∧
    (cipherVar.mk "").cipher = 0 ∧
    (cipherVar.mk "des").cipher = PEMCipherDES ∧
    (cipherVar.mk "3des").cipher = PEMCipher3DES ∧
    (cipherVar.mk "aes128").cipher = PEMCipherAES128 ∧
    (cipherVar.mk "aes192").cipher = PEMCipherAES192 ∧
    (cipherVar.mk "aes256").cipher = PEMCipherAES192 ∧
    (cipherVar.mk "aes256").cipher ≠ PEMCipherAES256 ∧
    (cipherVar.mk "aes256").cipher = (cipherVar.mk "aes192").cipher ∧
    (∀ u : cipherVar, u.cipher ≠ PEMCipherAES256) ∧
    (∀ s, s ∉ ["", "des", "3des", "aes128", "aes192", "aes256"] →
      v.Set s = (v, some (.newf "unsupported cipher %q" s))) := by
  refine ⟨?_, rfl, rfl, rfl, rfl, rfl, rfl, by decide, rfl, ?_, ?_⟩
  · intro s hs
    simp only [List.mem_cons, List.mem_singleton, List.not_mem_nil, or_false] at hs
    rcases hs with h | h | h | h | h | h <;> subst h <;> rfl
  · intro u
    by_cases h0 : u.value = ""
    · simp [cipherVar.cipher, ciphers, List.lookup, h0, PEMCipherAES256]
    by_cases h1 : u.value = "des"
    · simp [cipherVar.cipher, ciphers, List.lookup, h1, PEMCipherAES256, PEMCipherDES]
    by_cases h2 : u.value = "3des"
    · simp [cipherVar.cipher, ciphers, List.lookup, h2, PEMCipherAES256, PEMCipher3DES]
    by_cases h3 : u.value = "aes128"
    · simp [cipherVar.cipher, ciphers, List.lookup, h3, PEMCipherAES256, PEMCipherAES128]
    by_cases h4 : u.value = "aes192"
    · simp [cipherVar.cipher, ciphers, List.lookup, h4, PEMCipherAES256, PEMCipherAES192]
    by_cases h5 : u.value = "aes256"
    · simp [cipherVar.cipher, ciphers, List.lookup, h5, PEMCipherAES256, PEMCipherAES192]
    · simp [cipherVar.cipher, ciphers_lookup_none u.value h0 h1 h2 h3 h4 h5, PEMCipherAES256]
  · intro s hs
    simp only [List.mem_cons, List.mem_singleton, List.not_mem_nil, or_false, not_or] at hs
    obtain ⟨h0, h1, h2, h3, h4, h5⟩ := hs
    simp [cipherVar.Set, ciphers_lookup_none s h0 h1 h2 h3 h4 h5]

/-- Evaluation of C11: starting from the default `aes128`, setting the flag to
`aes256` is accepted and the cipher then handed to `WriteKey` is AES-192, the
same as for `aes192`; setting it to `aes512` is rejected and leaves the default. -/
theorem cipher_selection_by_name_witness :
    cipher.Set "aes256" = ({ value := "aes256" }, none) ∧
    (cipher.Set "aes256").1.cipher = PEMCipherAES192 ∧
    (cipher.Set "aes256").1.cipher ≠ PEMCipherAES256 ∧
    (cipher.Set "aes256").1.cipher = (cipher.Set "aes192").1.cipher ∧
    cipher.Set "aes512" = (cipher, some (.newf "unsupported cipher %q" "aes512")) :=
  ⟨(cipher_selection_by_name cipher).1 "aes256" (by decide),
   rfl, by decide, rfl,
   (cipher_selection_by_name cipher).2.2.2.2.2.2.2.2.2.2 "aes512" (by decide)⟩

end CA
